import Mathlib

/-!
Verification of the face-recognizing-locker repository.

Shallow embedding of the core pipeline:
  - `src/face_recognition_utils.py`: database load/save/add and the
    matching core of `recognize_face`;
  - `src/main.py`: `process_frame` and the capture-loop dispatch;
  - `src/telegram_bot.py`: the approval workflow (`send_unknown_face_alert`,
    `button_callback`, `process_allow_always`, `delayed_face_cache_cleanup`,
    the pending-face cache);
  - `src/hardware.py`: relay actuation trace of `unlock_door`.

Machine floats of the source are modelled as rationals; the external
detector and encoder (the face_recognition library) are external inputs;
filesystem and transport outcomes are explicit boolean or enumerated
parameters.  Python dictionaries whose only observations are get, put and
pop are modelled as functions `String -> Option String`.
-/

/-- A face encoding: a numeric vector (numpy ndarray of the source). -/
abbrev Enc : Type := List ℚ

/-- Python runtime values reaching the encoding checks of `main.process_frame`:
either a numpy array, a Python list, or a string.  The source tests values
with isinstance against np.ndarray and with the size attribute. -/
inductive PyVal : Type where
  | ndarray (v : List ℚ)
  | pylist (l : List PyVal)
  | pystr (s : String)
deriving Repr

/-- The checks of main.py lines 52 and 61: a value passes only when it is
an ndarray with nonzero size; the encoding is then the array itself. -/
def validEncoding : PyVal → Option Enc
  | .ndarray v => if v.length = 0 then none else some v
  | .pylist _ => none
  | .pystr _ => none

/-- Face bounding box (top, right, bottom, left) as in the source tuples. -/
structure FaceRegion : Type where
  top : Int
  right : Int
  bottom : Int
  left : Int
deriving Repr, DecidableEq

/-- The key of main.py line 49: (rect[2] - rect[0]) * (rect[1] - rect[3]). -/
def regionArea (r : FaceRegion) : Int := (r.bottom - r.top) * (r.right - r.left)

/-- Python max over a list with a key: first maximal element wins, none on
an empty list (main.py line 49). -/
def largestFace : List FaceRegion → Option FaceRegion
  | [] => none
  | r :: rs => some (rs.foldl (fun best x => if regionArea x > regionArea best then x else best) r)

/-- The matching loop of main.process_frame lines 57-71: fold over the
database items carrying (name, best distance so far); a missing best
distance stands for float inf.  Entries failing the ndarray check are
skipped; a candidate replaces the best only when its distance is strictly
below both the best so far and the threshold. -/
def process_frame_fold (dist : Enc → Enc → ℚ) (threshold : ℚ)
    (items : List (String × PyVal)) (q : Enc) : String :=
  (items.foldl
    (fun (acc : String × Option ℚ) (item : String × PyVal) =>
      match validEncoding item.2 with
      | none => acc
      | some ke =>
        let d := dist ke q
        let better := match acc.2 with
          | none => true
          | some b => decide (d < b)
        if better && decide (d < threshold) then (item.1, some d) else acc)
    ("Unknown", none)).1

/-- main.process_frame: detection and encoding are external inputs
(`face_locations` is the detector output, `encode` the result of
face_recognition.face_encodings for the chosen region).  Returns none for
(None, None), some (region, none) when the encoding check fails, and
some (region, some name) otherwise, name being "Unknown" when unmatched. -/
def process_frame (dist : Enc → Enc → ℚ) (threshold : ℚ)
    (face_locations : List FaceRegion) (encode : FaceRegion → List PyVal)
    (database : List (String × PyVal)) : Option (FaceRegion × Option String) :=
  match largestFace face_locations with
  | none => none
  | some lf =>
    match encode lf with
    | [] => some (lf, none)
    | e0 :: _ =>
      match validEncoding e0 with
      | none => some (lf, none)
      | some q => some (lf, some (process_frame_fold dist threshold database q))

/-- The comparison main.py line 118: name != "Unknown", where name may be
Python None (modelled none).  None != "Unknown" is Python True. -/
def name_ne_unknown : Option String → Bool
  | none => true
  | some s => decide (s ≠ "Unknown")

/-- Outcome of one capture-loop iteration (main.py lines 96-133). -/
inductive LoopAction : Type where
  | camError
  | cooldownDrop
  | noFace
  | unlock
  | alert
deriving Repr, DecidableEq

/-- Mutable loop state: last_detection_time (main.py line 94). -/
structure LoopState : Type where
  last_detection_time : ℚ
deriving Repr, DecidableEq

/-- One iteration of the main loop (main.py lines 96-133): camera check,
cooldown gate, then last_detection_time is set to the current time BEFORE
detection runs; dispatch on the process_frame result. -/
def loop_iteration (cooldown : ℚ) (st : LoopState) (current_time : ℚ)
    (frame_ok : Bool) (pf : Option (FaceRegion × Option String)) :
    LoopState × LoopAction :=
  if !frame_ok then (st, .camError)
  else if current_time - st.last_detection_time < cooldown then (st, .cooldownDrop)
  else
    let st2 : LoopState := ⟨current_time⟩
    match pf with
    | none => (st2, .noFace)
    | some (_, name) => if name_ne_unknown name then (st2, .unlock) else (st2, .alert)

/-- Persistent store: parallel lists of encodings and names, the
"encodings"/"names" dict of face_recognition_utils.py. -/
structure FaceDB : Type where
  encodings : List Enc
  names : List String
deriving Repr, DecidableEq

/-- face_recognition_utils.load_face_database: loads the pickled columnar
dict, or creates an empty one when the file is missing.  The result is the
dict as an association list in insertion order, exactly the structure that
main.process_frame later iterates with .items(): the two entries are the
keys "encodings" and "names" whose values are Python lists. -/
def load_face_database (file : Option FaceDB) : List (String × PyVal) :=
  match file with
  | some db => [("encodings", .pylist (db.encodings.map .ndarray)),
                ("names", .pylist (db.names.map .pystr))]
  | none => [("encodings", .pylist []), ("names", .pylist [])]

/-- face_recognition_utils.add_face_to_database with the outcome of the
durable write explicit.  The source appends to both in-memory lists FIRST
and then calls save_face_database; a write failure raises out of the
function (modelled .error, carrying the in-memory state at that point),
and on success the function ends without a return statement, so its Python
return value is None (modelled as the value none of Option Bool). -/
def add_face_to_database (save_fails : Bool) (db : FaceDB) (enc : Enc)
    (name : String) : Except FaceDB (FaceDB × Option Bool) :=
  let db2 : FaceDB := ⟨db.encodings ++ [enc], db.names ++ [name]⟩
  if save_fails then .error db2 else .ok (db2, none)

/-- Python truthiness test on an optional boolean: None and False are falsy. -/
def pyFalsy : Option Bool → Bool
  | none => true
  | some b => !b

/-- Result of telegram_bot.process_allow_always: the database afterwards,
the caption text reported to the operator, and whether hardware.unlock_door
was invoked. -/
structure AAResult : Type where
  db : FaceDB
  message : Option String
  unlock_invoked : Bool
deriving Repr, DecidableEq

/-- telegram_bot.process_allow_always (lines 147-185).  The filesystem
check on the stored image and the re-detection on it are external inputs
(img_exists, face_locs, enc0); save_fails is the durable-write outcome and
unlock_ok the relay actuation outcome.  A save exception propagates to the
except handler, whose caption is the same failure text. -/
def process_allow_always (img_exists : Bool) (face_locs : List FaceRegion)
    (enc0 : Enc) (save_fails : Bool) (unlock_ok : Bool) (db : FaceDB)
    (gen_name : String) : AAResult :=
  if !img_exists then ⟨db, some "ERROR: Face image does not exist.", false⟩
  else
    match face_locs with
    | [] => ⟨db, some "Could not detect face in image.", false⟩
    | _ :: _ =>
      match add_face_to_database save_fails db enc0 gen_name with
      | .error db2 => ⟨db2, some "Failed to add person to database.", false⟩
      | .ok (db2, success) =>
        if pyFalsy success then ⟨db2, some "Failed to add person to database.", false⟩
        else
          ⟨db2,
           some (if unlock_ok then
                   "Person added to database as " ++ gen_name ++ ". Door unlocked."
                 else
                   "Person added to database as " ++ gen_name ++ ". Door unlock failed."),
           true⟩

/-- Relay pin events of hardware.unlock_door: set LOW (unlock), hold,
set HIGH (lock). -/
inductive RelayEvent : Type where
  | setLow
  | hold (duration : ℚ)
  | setHigh
deriving Repr, DecidableEq

/-- hardware.unlock_door (lines 19-28): uses config.UNLOCK_DURATION when no
duration is passed; unconditionally relocks after the hold. -/
def unlock_door (duration : Option ℚ) (config_unlock_duration : ℚ) : List RelayEvent :=
  [.setLow, .hold (duration.getD config_unlock_duration), .setHigh]

/-- The pending-face cache face_path_cache of telegram_bot.py: a Python
dict observed only through get, item assignment and pop, modelled as a
finite map by function. -/
abbrev Cache : Type := String → Option String

def cache_empty : Cache := fun _ => none

/-- Dict item assignment: face_path_cache[face_id] = face_path. -/
def cache_put (c : Cache) (k v : String) : Cache :=
  fun x => if x = k then some v else c x

/-- Dict pop with default None: removes the key when present, no error
when absent. -/
def cache_pop (c : Cache) (k : String) : Cache :=
  fun x => if x = k then none else c x

/-- Dict get: face_path_cache.get(face_id). -/
def cache_lookup (c : Cache) (k : String) : Option String := c k

/-- telegram_bot.send_unknown_face_alert line 207: the pending id is
str(int(time.time())), the integer second of the call time. -/
def face_id (t : ℚ) : String := toString ⌊t⌋

/-- Outcome of one send_photo attempt as seen by the retry loop: success,
a Telegram timeout, or any other exception.  Both failure kinds fall
through to the next attempt. -/
inductive AttemptResult : Type where
  | ok
  | timedOut
  | failed
deriving Repr, DecidableEq

/-- How the retry loop of send_unknown_face_alert (lines 223-245) exits:
the early `return False` when the image file is empty, or loop completion
with the final success flag. -/
inductive SendLoopOut : Type where
  | earlyFalse
  | finished (success : Bool)
deriving Repr, DecidableEq

/-- One iteration of the retry loop: the file-size guard (whose failure is
the early `return False`), then the send attempt; TimedOut and any other
exception both fall through to the next attempt (modelled none). -/
def send_attempt (file_nonempty : Bool) (a : AttemptResult) : Option SendLoopOut :=
  if !file_nonempty then some .earlyFalse
  else
    match a with
    | .ok => some (.finished true)
    | .timedOut => none
    | .failed => none

/-- The retry loop of send_unknown_face_alert: for attempt in range(3)
with RETRY_ATTEMPTS = 3 (telegram_bot.py line 24), exiting early on the
empty-file guard or on a successful send, else completing with success
still False. -/
def send_loop (file_nonempty : Bool) (attempts : Nat → AttemptResult) : SendLoopOut :=
  match send_attempt file_nonempty (attempts 0) with
  | some out => out
  | none =>
    match send_attempt file_nonempty (attempts 1) with
    | some out => out
    | none =>
      match send_attempt file_nonempty (attempts 2) with
      | some out => out
      | none => .finished false

/-- Observable outcome of telegram_bot.send_unknown_face_alert: the return
value, the cache afterwards, whether the text-only fallback was attempted,
and whether delayed_face_cache_cleanup was scheduled. -/
structure AlertResult : Type where
  retval : Bool
  cache : Cache
  fallback_attempted : Bool
  cleanup_scheduled : Bool

/-- telegram_bot.send_unknown_face_alert (lines 197-264): guard on bot and
file existence, insert the pending entry, run the retry loop; on success
schedule the delayed cleanup, on exhausted attempts pop the entry
immediately and attempt the text-only fallback; return the success flag. -/
def send_unknown_face_alert (bot_ok : Bool) (file_exists : Bool)
    (file_nonempty : Bool) (attempts : Nat → AttemptResult) (t : ℚ)
    (face_path : String) (cache : Cache) : AlertResult :=
  if !bot_ok then ⟨false, cache, false, false⟩
  else if !file_exists then ⟨false, cache, false, false⟩
  else
    let fid := face_id t
    let cache1 := cache_put cache fid face_path
    match send_loop file_nonempty attempts with
    | .earlyFalse => ⟨false, cache1, false, false⟩
    | .finished true => ⟨true, cache1, false, true⟩
    | .finished false => ⟨false, cache_pop cache1 fid, true, false⟩

/-- Python falsiness of an optional string: None and the empty string are
falsy (the `if not face_path` test of button_callback line 105). -/
def pyStrFalsy : Option String → Bool
  | none => true
  | some s => s.isEmpty

/-- Observable outcome of telegram_bot.button_callback for one callback. -/
structure CbResult : Type where
  cache : Cache
  db : FaceDB
  unlock_invoked : Bool
  message : Option String

/-- telegram_bot.button_callback (lines 88-123) after JSON decoding: look
the id up under the lock; a falsy path reports expiry and returns without
touching the cache; otherwise dispatch on the action string (only the
three literals are handled, any other action falls through silently) and
finally pop the id under the lock.  The allow-always environment
(img_exists, face_locs, enc0, save_fails) and the relay outcome unlock_ok
parameterize the sub-handlers. -/
def button_callback (action : Option String) (fid : String)
    (img_exists : Bool) (face_locs : List FaceRegion) (enc0 : Enc)
    (save_fails : Bool) (unlock_ok : Bool) (cache : Cache) (db : FaceDB)
    (gen_name : String) : CbResult :=
  let fp := cache_lookup cache fid
  if pyStrFalsy fp then
    ⟨cache, db, false, some "Error: Face data expired or not found."⟩
  else
    let afterAction : FaceDB × Bool × Option String :=
      if action = some "allow_always" then
        let r := process_allow_always img_exists face_locs enc0 save_fails unlock_ok db gen_name
        (r.db, r.unlock_invoked, r.message)
      else if action = some "allow_once" then
        (db, true,
         some (if unlock_ok then "Door unlocked for one-time access."
               else "Failed to unlock door."))
      else if action = some "deny" then
        (db, false, some "Access denied.")
      else (db, false, none)
    ⟨cache_pop cache fid, afterAction.1, afterAction.2.1, afterAction.2.2⟩

/-- State of the race between a decision callback and the expiry sweep for
one pending id: the cache entry for that id, the path the callback fetched
at its lookup (outer none = lookup not yet performed), and event flags
recording who routed what and whose pop actually deleted the entry. -/
structure RaceState : Type where
  entry : Option String
  cb_fetched : Option (Option String)
  cb_routed : Bool
  cb_reported_not_found : Bool
  cb_removed : Bool
  sweep_removed : Bool
deriving Repr, DecidableEq

/-- Atomic moves of the race.  cbLookup is the locked get of
button_callback line 102-103; cbFinish is the remainder of the callback:
on a fetched path it routes the decision and then pops under the lock
(lines 109-117), on a fetched absence it only reports expiry (line 106);
sweepFire is the locked check-and-pop of delayed_face_cache_cleanup
lines 269-272. -/
inductive RaceMove : Type where
  | cbLookup
  | cbFinish
  | sweepFire
deriving Repr, DecidableEq

def race_step (s : RaceState) (m : RaceMove) : RaceState :=
  match m with
  | .cbLookup => { s with cb_fetched := some s.entry }
  | .cbFinish =>
    match s.cb_fetched with
    | some (some _) =>
      { s with cb_routed := true, cb_removed := s.entry.isSome, entry := none }
    | some none => { s with cb_reported_not_found := true }
    | none => s
  | .sweepFire =>
    match s.entry with
    | some _ => { s with sweep_removed := true, entry := none }
    | none => s

def race_run (init : RaceState) (ms : List RaceMove) : RaceState :=
  ms.foldl race_step init

/-- Initial race state: the contested id maps to path p, the callback has
not looked it up yet, nothing has happened. -/
def race_init (p : String) : RaceState := ⟨some p, none, false, false, false, false⟩

/-- np.argmin over a list of distances: the index of the first occurrence
of the minimum (numpy returns the first on ties). -/
def np_argmin : List ℚ → Nat
  | [] => 0
  | [_] => 0
  | d :: e :: rest =>
    if (e :: rest).getD (np_argmin (e :: rest)) 0 < d then np_argmin (e :: rest) + 1
    else 0

/-- The matching core of face_recognition_utils.recognize_face
(lines 93-102): when the store is nonempty, compute the distance from the
query to every stored encoding, take np.argmin, and return the name at
that index only when its distance is strictly below the threshold;
otherwise fall through to the unmatched outcome (none). -/
def recognize_face_match (dist : Enc → Enc → ℚ) (threshold : ℚ)
    (db : FaceDB) (q : Enc) : Option String :=
  match db.encodings with
  | [] => none
  | e :: es =>
    let ds := (e :: es).map (fun ke => dist ke q)
    let i := np_argmin ds
    if ds.getD i 0 < threshold then db.names.get? i else none

/-- A concrete stand-in for the abstract face_distance metric, used only to
instantiate universally quantified theorems at concrete inputs. -/
def dist_example (a b : Enc) : ℚ := if a = b then 0 else 1

theorem np_argmin_lt_length : ∀ (l : List ℚ), l ≠ [] → np_argmin l < l.length
  | [], h => absurd rfl h
  | [_], _ => Nat.zero_lt_one
  | d :: e :: rest, _ => by
    have ih := np_argmin_lt_length (e :: rest) (by simp)
    simp only [List.length_cons] at ih
    by_cases hc : (e :: rest).getD (np_argmin (e :: rest)) 0 < d
    · simp only [np_argmin, if_pos hc, List.length_cons]
      omega
    · simp only [np_argmin, if_neg hc, List.length_cons]
      omega

theorem np_argmin_le : ∀ (l : List ℚ) (j : Nat), j < l.length →
    l.getD (np_argmin l) 0 ≤ l.getD j 0
  | [], j, h => by simp at h
  | [d], j, h => by
    have hj : j = 0 := by simpa using Nat.lt_one_iff.mp (by simpa using h)
    subst hj
    exact le_refl _
  | d :: e :: rest, j, h => by
    by_cases hc : (e :: rest).getD (np_argmin (e :: rest)) 0 < d
    · simp only [np_argmin, if_pos hc, List.getD_cons_succ]
      match j with
      | 0 => simpa using le_of_lt hc
      | j' + 1 =>
        simp only [List.getD_cons_succ]
        exact np_argmin_le (e :: rest) j' (by simpa using Nat.succ_lt_succ_iff.mp h)
    · simp only [np_argmin, if_neg hc, List.getD_cons_zero]
      match j with
      | 0 => simp
      | j' + 1 =>
        simp only [List.getD_cons_succ]
        have hd : d ≤ (e :: rest).getD (np_argmin (e :: rest)) 0 := le_of_not_lt hc
        exact le_trans hd
          (np_argmin_le (e :: rest) j' (by simpa using Nat.succ_lt_succ_iff.mp h))

theorem np_argmin_first : ∀ (l : List ℚ) (j : Nat), j < np_argmin l →
    l.getD (np_argmin l) 0 < l.getD j 0
  | [], j, h => by simp [np_argmin] at h
  | [_], j, h => by simp [np_argmin] at h
  | d :: e :: rest, j, h => by
    by_cases hc : (e :: rest).getD (np_argmin (e :: rest)) 0 < d
    · simp only [np_argmin, if_pos hc] at h
      simp only [np_argmin, if_pos hc, List.getD_cons_succ]
      match j with
      | 0 => simpa using hc
      | j' + 1 =>
        simp only [List.getD_cons_succ]
        exact np_argmin_first (e :: rest) j' (Nat.succ_lt_succ_iff.mp h)
    · simp only [np_argmin, if_neg hc] at h
      exact absurd h (Nat.not_lt_zero j)

theorem getD_map_dist (dist : Enc → Enc → ℚ) (q : Enc) :
    ∀ (l : List Enc) (j : Nat), j < l.length →
      (l.map (fun ke => dist ke q)).getD j 0 = dist (l.getD j []) q
  | [], j, h => by simp at h
  | e :: es, 0, _ => by simp
  | e :: es, j + 1, h => by
    simp only [List.map_cons, List.getD_cons_succ]
    exact getD_map_dist dist q es j (by simpa using Nat.succ_lt_succ_iff.mp h)

/-- C4: for every store and query encoding, the matching core of
recognize_face returns the name of the stored record with minimum distance
only if that minimum is strictly below the threshold (the returned index is
the first index attaining the minimum, so distance ties are broken
first-inserted-wins); it returns none when the store is empty and when no
distance clears the threshold. -/
theorem best_match_policy (dist : Enc → Enc → ℚ) (th : ℚ) (db : FaceDB) (q : Enc)
    (hlen : db.names.length = db.encodings.length) :
    (db.encodings = [] → recognize_face_match dist th db q = none) ∧
    (∀ name, recognize_face_match dist th db q = some name →
      ∃ i, i < db.encodings.length ∧ db.names.get? i = some name ∧
        dist (db.encodings.getD i []) q < th ∧
        (∀ j, j < db.encodings.length →
          dist (db.encodings.getD i []) q ≤ dist (db.encodings.getD j []) q) ∧
        (∀ j, j < i →
          dist (db.encodings.getD i []) q < dist (db.encodings.getD j []) q)) ∧
    ((∀ j, j < db.encodings.length → th ≤ dist (db.encodings.getD j []) q) →
      recognize_face_match dist th db q = none) := by
  obtain ⟨encs, names⟩ := db
  dsimp only at hlen ⊢
  cases encs with
  | nil =>
    refine ⟨fun _ => rfl, ?_, fun _ => rfl⟩
    intro name h
    simp [recognize_face_match] at h
  | cons e es =>
    have hne : (e :: es).map (fun ke => dist ke q) ≠ [] := by simp
    have hlength : ((e :: es).map (fun ke => dist ke q)).length = (e :: es).length :=
      List.length_map _ _
    have hilt : np_argmin ((e :: es).map (fun ke => dist ke q)) < (e :: es).length := by
      have h1 := np_argmin_lt_length _ hne
      rwa [hlength] at h1
    refine ⟨by simp, ?_, ?_⟩
    · intro name h
      simp only [recognize_face_match] at h
      split at h
      case isTrue hlt =>
        refine ⟨np_argmin ((e :: es).map (fun ke => dist ke q)), hilt, h, ?_, ?_, ?_⟩
        · rwa [getD_map_dist dist q (e :: es) _ hilt] at hlt
        · intro j hj
          have h1 := np_argmin_le ((e :: es).map (fun ke => dist ke q)) j
            (by rwa [hlength])
          rwa [getD_map_dist dist q (e :: es) _ hilt,
               getD_map_dist dist q (e :: es) j hj] at h1
        · intro j hj
          have h1 := np_argmin_first ((e :: es).map (fun ke => dist ke q)) j hj
          have hjlt : j < (e :: es).length := lt_trans hj hilt
          rwa [getD_map_dist dist q (e :: es) _ hilt,
               getD_map_dist dist q (e :: es) j hjlt] at h1
      case isFalse =>
        simp at h
    · intro hall
      have hnot : ¬ ((e :: es).map (fun ke => dist ke q)).getD
          (np_argmin ((e :: es).map (fun ke => dist ke q))) 0 < th := by
        rw [getD_map_dist dist q (e :: es) _ hilt]
        exact not_lt.mpr (hall _ hilt)
      simp only [recognize_face_match, if_neg hnot]

/-- Helper: after a put, looking up the inserted key yields the new value. -/
theorem cache_lookup_put (c : Cache) (k v : String) :
    cache_lookup (cache_put c k v) k = some v := by
  simp [cache_lookup, cache_put]

/-- Helper: after a pop, looking up the popped key yields none. -/
theorem cache_lookup_pop (c : Cache) (k : String) :
    cache_lookup (cache_pop c k) k = none := by
  simp [cache_lookup, cache_pop]

/-- C1: at a frame where a face region is detected but encoding extraction
fails, process_frame returns the region with no name, but the capture loop
of main routes that outcome to the UNLOCK branch, not the approval branch:
the comparison name != "Unknown" is Python True for name None, so the code
unlocks the door for an unidentifiable face instead of alerting. -/
theorem undecodable_face_takes_unlock_branch :
    process_frame (fun _ _ => 0) (6/10) [⟨0, 10, 10, 0⟩] (fun _ => []) []
      = some (⟨0, 10, 10, 0⟩, none) ∧
    loop_iteration 2 ⟨0⟩ 5 true
      (process_frame (fun _ _ => 0) (6/10) [⟨0, 10, 10, 0⟩] (fun _ => []) [])
      = (⟨5⟩, LoopAction.unlock) ∧
    LoopAction.unlock ≠ LoopAction.alert := by
  refine ⟨by simp [process_frame, largestFace], ?_, by decide⟩
  simp [process_frame, largestFace, loop_iteration, name_ne_unknown]
  norm_num

/-- C2: in the allow-always resolution, hardware.unlock_door is NEVER
invoked, for any outcome of persistence: add_face_to_database has no
return statement, so its Python return value is None, and the
`if not success` check in process_allow_always always reports failure.
In particular, on a fully successful run (image present, face found,
durable write succeeds) the record IS appended and persisted, yet the
operator is told the add failed and no unlock occurs. -/
theorem allow_always_never_unlocks :
    (∀ (img : Bool) (locs : List FaceRegion) (e : Enc) (sf uo : Bool)
       (db : FaceDB) (n : String),
       (process_allow_always img locs e sf uo db n).unlock_invoked = false) ∧
    process_allow_always true [⟨0, 10, 10, 0⟩] [1] false true ⟨[], []⟩ "Person_1"
      = ⟨⟨[[1]], ["Person_1"]⟩, some "Failed to add person to database.", false⟩ := by
  constructor
  · intro img locs e sf uo db n
    cases img <;> cases sf <;> cases locs <;>
      simp [process_allow_always, add_face_to_database, pyFalsy]
  · rfl

/-- C3: the pipeline can never produce a named match from the store loaded
by load_face_database: main.process_frame iterates the loaded columnar
dict with .items(), so the only entries it sees are the keys "encodings"
and "names" whose values are Python lists, both skipped by the ndarray
check.  In particular, with "Alice" in the store at distance 1/10 from the
query (threshold 6/10), the outcome is "Unknown" and the loop routes to
the alert branch instead of unlocking. -/
theorem loaded_database_never_matches :
    (∀ (dist : Enc → Enc → ℚ) (th : ℚ) (file : Option FaceDB) (q : Enc),
      process_frame_fold dist th (load_face_database file) q = "Unknown") ∧
    loop_iteration 2 ⟨0⟩ 5 true
      (process_frame (fun _ _ => 1/10) (6/10) [⟨0, 10, 10, 0⟩]
        (fun _ => [.ndarray [1]]) (load_face_database (some ⟨[[2]], ["Alice"]⟩)))
      = (⟨5⟩, LoopAction.alert) := by
  constructor
  · intro dist th file q
    cases file <;> rfl
  · simp [process_frame, largestFace, validEncoding, process_frame_fold,
      load_face_database, loop_iteration, name_ne_unknown]
    norm_num

/-- C5 counterexample: the claim that a failed durable write leaves the
in-memory store unchanged is false: add_face_to_database appends to the
in-memory lists before calling save, so a failing save leaves the record
appended. -/
theorem add_not_all_or_nothing :
    add_face_to_database true ⟨[], []⟩ [1] "Bob" = .error ⟨[[1]], ["Bob"]⟩ ∧
    FaceDB.mk [[1]] ["Bob"] ≠ ⟨[], []⟩ := by
  refine ⟨rfl, ?_⟩
  simp

/-- C5 amended: when the durable write fails, add_face_to_database raises
(the failure is reported to the caller as an exception), but the in-memory
store retains the appended record: the append happens before the save and
is not rolled back. -/
theorem add_on_save_failure (db : FaceDB) (e : Enc) (n : String) :
    add_face_to_database true db e n
      = .error ⟨db.encodings ++ [e], db.names ++ [n]⟩ := rfl

/-- C6 counterexample: a capture-loop iteration that passes the cooldown
gate and then finds no face region does NOT leave the cooldown timestamp
unchanged: last_detection_time is assigned the current time before
detection runs, so the no-face iteration consumes the cooldown window. -/
theorem no_face_consumes_cooldown :
    loop_iteration 2 ⟨0⟩ 5 true none = (⟨5⟩, LoopAction.noFace) ∧
    LoopState.mk 5 ≠ ⟨0⟩ := by
  constructor
  · simp [loop_iteration]
    norm_num
  · simp [LoopState.mk.injEq]

/-- C6 amended: an iteration whose detection finds no face region, having
passed the cooldown gate, sets last_detection_time to that iteration's
current time (the assignment precedes detection), then logs, waits 0.5s
and continues. -/
theorem no_face_sets_timestamp (cooldown : ℚ) (st : LoopState) (t : ℚ)
    (h : cooldown ≤ t - st.last_detection_time) :
    loop_iteration cooldown st t true none = (⟨t⟩, LoopAction.noFace) := by
  simp [loop_iteration, not_lt.mpr h]

/-- Witness for the C6 amended theorem at a concrete input. -/
theorem no_face_sets_timestamp_witness :
    (2 : ℚ) ≤ 5 - (LoopState.mk 0).last_detection_time ∧
    loop_iteration 2 ⟨0⟩ 5 true none = (⟨5⟩, LoopAction.noFace) :=
  ⟨by norm_num, no_face_sets_timestamp 2 ⟨0⟩ 5 (by norm_num)⟩

/-- Witness for best_match_policy at a concrete store and query: two
records named A and B, query equal to the first encoding, threshold 1/2. -/
theorem best_match_policy_witness :
    ((FaceDB.mk [[0], [1]] ["A", "B"]).encodings = [] →
      recognize_face_match dist_example (1/2) ⟨[[0], [1]], ["A", "B"]⟩ [0] = none) ∧
    (∀ name,
      recognize_face_match dist_example (1/2) ⟨[[0], [1]], ["A", "B"]⟩ [0] = some name →
      ∃ i, i < (FaceDB.mk [[0], [1]] ["A", "B"]).encodings.length ∧
        (FaceDB.mk [[0], [1]] ["A", "B"]).names.get? i = some name ∧
        dist_example ((FaceDB.mk [[0], [1]] ["A", "B"]).encodings.getD i []) [0] < 1/2 ∧
        (∀ j, j < (FaceDB.mk [[0], [1]] ["A", "B"]).encodings.length →
          dist_example ((FaceDB.mk [[0], [1]] ["A", "B"]).encodings.getD i []) [0] ≤
            dist_example ((FaceDB.mk [[0], [1]] ["A", "B"]).encodings.getD j []) [0]) ∧
        (∀ j, j < i →
          dist_example ((FaceDB.mk [[0], [1]] ["A", "B"]).encodings.getD i []) [0] <
            dist_example ((FaceDB.mk [[0], [1]] ["A", "B"]).encodings.getD j []) [0])) ∧
    ((∀ j, j < (FaceDB.mk [[0], [1]] ["A", "B"]).encodings.length →
        1/2 ≤ dist_example ((FaceDB.mk [[0], [1]] ["A", "B"]).encodings.getD j []) [0]) →
      recognize_face_match dist_example (1/2) ⟨[[0], [1]], ["A", "B"]⟩ [0] = none) :=
  best_match_policy dist_example (1/2) ⟨[[0], [1]], ["A", "B"]⟩ [0] rfl

/-- C7 counterexample: pending ids are str(int(time.time())): two
send_alert call times falling in the same integer second produce the SAME
id, and the second insertion overwrites the first entry, so two
simultaneously outstanding decisions share one id. -/
theorem face_id_collision :
    face_id (501/5) = face_id (1009/10) ∧ ((501 : ℚ)/5) ≠ 1009/10 ∧
    cache_lookup (cache_put (cache_put cache_empty (face_id (501/5)) "p1")
      (face_id (1009/10)) "p2") (face_id (501/5)) = some "p2" := by
  have hf1 : (⌊(501 : ℚ)/5⌋ : ℤ) = 100 := by norm_num
  have hf2 : (⌊(1009 : ℚ)/10⌋ : ℤ) = 100 := by norm_num
  have hid : face_id (501/5) = face_id (1009/10) := by
    unfold face_id
    rw [hf1, hf2]
  refine ⟨hid, by norm_num, ?_⟩
  rw [hid]
  exact cache_lookup_put _ _ _

/-- C7 amended: pending ids are the integer second of the send_alert call
time; two calls whose times share the integer second receive the same id,
and the later insertion overwrites the earlier entry, so an id uniquely
denotes one outstanding decision only when calls fall in distinct
seconds. -/
theorem same_second_shares_id (t1 t2 : ℚ) (p1 p2 : String) (c : Cache)
    (h : ⌊t1⌋ = ⌊t2⌋) :
    face_id t1 = face_id t2 ∧
    cache_lookup (cache_put (cache_put c (face_id t1) p1) (face_id t2) p2)
      (face_id t1) = some p2 := by
  have hid : face_id t1 = face_id t2 := by
    unfold face_id
    rw [h]
  refine ⟨hid, ?_⟩
  rw [hid]
  exact cache_lookup_put _ _ _

/-- Witness for same_second_shares_id at concrete call times 10.5 and 10.9. -/
theorem same_second_shares_id_witness :
    (⌊(21 : ℚ)/2⌋ = ⌊(109 : ℚ)/10⌋) ∧
    (face_id (21/2) = face_id (109/10) ∧
     cache_lookup (cache_put (cache_put cache_empty (face_id (21/2)) "a")
       (face_id (109/10)) "b") (face_id (21/2)) = some "b") :=
  ⟨by norm_num, same_second_shares_id (21/2) (109/10) "a" "b" cache_empty (by norm_num)⟩

/-- C8: when all three delivery attempts fail, send_unknown_face_alert
removes the pending entry immediately, attempts the text-only fallback,
and returns false. -/
theorem exhausted_retries_cleanup (attempts : Nat → AttemptResult) (t : ℚ)
    (p : String) (c : Cache)
    (h0 : attempts 0 ≠ .ok) (h1 : attempts 1 ≠ .ok) (h2 : attempts 2 ≠ .ok) :
    (send_unknown_face_alert true true true attempts t p c).retval = false ∧
    cache_lookup (send_unknown_face_alert true true true attempts t p c).cache
      (face_id t) = none ∧
    (send_unknown_face_alert true true true attempts t p c).fallback_attempted = true := by
  have hloop : send_loop true attempts = .finished false := by
    unfold send_loop send_attempt
    cases ha0 : attempts 0 <;> cases ha1 : attempts 1 <;> cases ha2 : attempts 2 <;>
      simp_all
  refine ⟨?_, ?_, ?_⟩ <;>
    simp [send_unknown_face_alert, hloop, cache_lookup_pop]

/-- Witness for exhausted_retries_cleanup with every attempt failing. -/
theorem exhausted_retries_cleanup_witness :
    ((fun _ => AttemptResult.failed) 0 ≠ AttemptResult.ok) ∧
    ((send_unknown_face_alert true true true (fun _ => .failed) 0 "p" cache_empty).retval
        = false ∧
      cache_lookup
        (send_unknown_face_alert true true true (fun _ => .failed) 0 "p" cache_empty).cache
        (face_id 0) = none ∧
      (send_unknown_face_alert true true true
        (fun _ => .failed) 0 "p" cache_empty).fallback_attempted = true) :=
  ⟨by decide,
   exhausted_retries_cleanup (fun _ => .failed) 0 "p" cache_empty
     (by decide) (by decide) (by decide)⟩

/-- C9 counterexample: in the interleaving where the sweep fires between
the locked lookup of the callback and the rest of the callback, the sweep
performs the removal AND the callback still routes the resolution: the
loser does not observe absence, both act on the entry. -/
theorem race_both_act :
    (race_run (race_init "p") [.cbLookup, .sweepFire, .cbFinish]).sweep_removed = true ∧
    (race_run (race_init "p") [.cbLookup, .sweepFire, .cbFinish]).cb_routed = true ∧
    (race_run (race_init "p") [.cbLookup, .sweepFire, .cbFinish]).cb_reported_not_found
      = false :=
  ⟨rfl, rfl, rfl⟩

/-- C9 amended: across all three interleavings of the race, exactly one of
the sweep and the callback actually deletes the entry (the pops are
idempotent under the lock), but the callback routes the resolution
whenever its LOOKUP found the entry, even if the sweep removed it before
the callback finished; only a callback whose lookup already observes
absence reports not-found and acts no further. -/
theorem race_exactly_one_removal (p : String) :
    race_run (race_init p) [.cbLookup, .cbFinish, .sweepFire]
      = ⟨none, some (some p), true, false, true, false⟩ ∧
    race_run (race_init p) [.cbLookup, .sweepFire, .cbFinish]
      = ⟨none, some (some p), true, false, false, true⟩ ∧
    race_run (race_init p) [.sweepFire, .cbLookup, .cbFinish]
      = ⟨none, some none, false, true, false, true⟩ :=
  ⟨rfl, rfl, rfl⟩

/-- C10: a decision callback whose id is present (with a nonempty stored
path) but whose action tag is none of the three known literals removes the
pending entry, performs no relay actuation and no store mutation, and
sends no outcome message. -/
theorem unmatched_action_silent_removal (action : Option String) (fid p : String)
    (img : Bool) (locs : List FaceRegion) (e0 : Enc) (sf uo : Bool)
    (c : Cache) (db : FaceDB) (n : String)
    (hp : cache_lookup c fid = some p) (hpne : p ≠ "")
    (ha1 : action ≠ some "allow_always") (ha2 : action ≠ some "allow_once")
    (ha3 : action ≠ some "deny") :
    cache_lookup (button_callback action fid img locs e0 sf uo c db n).cache fid
      = none ∧
    (button_callback action fid img locs e0 sf uo c db n).db = db ∧
    (button_callback action fid img locs e0 sf uo c db n).unlock_invoked = false ∧
    (button_callback action fid img locs e0 sf uo c db n).message = none := by
  have hfalsy : pyStrFalsy (cache_lookup c fid) = false := by
    rw [hp]
    show p.isEmpty = false
    rw [Bool.eq_false_iff]
    intro hcontra
    exact hpne ((String.isEmpty_iff p).mp hcontra)
  refine ⟨?_, ?_, ?_, ?_⟩ <;>
    simp [button_callback, hfalsy, ha1, ha2, ha3, cache_lookup_pop]

/-- Witness for unmatched_action_silent_removal with the action tag foo. -/
theorem unmatched_action_silent_removal_witness :
    cache_lookup (cache_put cache_empty "1" "p") "1" = some "p" ∧
    (cache_lookup (button_callback (some "foo") "1" true [] [] false false
        (cache_put cache_empty "1" "p") ⟨[], []⟩ "N").cache "1" = none ∧
     (button_callback (some "foo") "1" true [] [] false false
        (cache_put cache_empty "1" "p") ⟨[], []⟩ "N").db = ⟨[], []⟩ ∧
     (button_callback (some "foo") "1" true [] [] false false
        (cache_put cache_empty "1" "p") ⟨[], []⟩ "N").unlock_invoked = false ∧
     (button_callback (some "foo") "1" true [] [] false false
        (cache_put cache_empty "1" "p") ⟨[], []⟩ "N").message = none) :=
  ⟨by decide,
   unmatched_action_silent_removal (some "foo") "1" "p" true [] [] false false
     (cache_put cache_empty "1" "p") ⟨[], []⟩ "N"
     (by decide) (by decide) (by decide) (by decide) (by decide)⟩
